import Mathlib

/-!
Verification of the two service brokers of cf-local-service-broker: the
object-storage (MinIO) broker and the relational (PostgreSQL) broker, both
from `internal/broker`.

Modelling conventions.
Go strings are modelled as lists of characters (`Str`); for the ASCII data the
brokers handle, Go's byte length and byte slicing coincide with list length and
`take`.  The backing engines are external collaborators (spec section 6): the
object-storage engine is modelled semantically as the set of existing buckets
with their object counts, and the relational engine as the sets of existing
databases and roles, with a semantic executor `pgExec`; the relational broker's
operations are additionally parametric in the executor, mirroring the opaque
`db.Exec` collaborator, so statements about error propagation hold for every
engine behaviour.  `crypto/rand.Read` is modelled as consuming a finite entropy
stream; an exhausted stream is the entropy-source failure.  Each operation
returns the engine state, the trace of administrative commands it executed, its
Go return value, and its Go `error` result (a `none` error is Go's `nil`).
-/

/-- Go strings, modelled as lists of characters. -/
abbrev Str := List Char

/-- A Lean string literal, as the character-list representation. -/
def str (s : String) : Str := s.data

/-- Errors returned by broker operations: the fixed `brokerapi` sentinel errors,
`NewFailureResponse` errors carrying an HTTP status code and logger action, the
`validateIdentifier` error, and `fmt.Errorf`-wrapped upstream errors. -/
inductive BrokerErr where
  | instanceAlreadyExists : BrokerErr
  | instanceDoesNotExist : BrokerErr
  | invalidIdentifier (name : Str) : BrokerErr
  | failureResponse (msg : Str) (statusCode : Nat) (loggerAction : Str) : BrokerErr
  | wrapped (msg : Str) : BrokerErr
deriving DecidableEq, Repr

/-- A value in a credentials map (`map[string]interface` in Go holds strings and
the `use_ssl` boolean here). -/
inductive CredValue where
  | str (s : Str) : CredValue
  | bool (b : Bool) : CredValue
deriving DecidableEq, Repr

/-- `domain.Binding`: the credentials map returned by Bind. -/
structure Binding where
  credentials : List (Str × CredValue)
deriving DecidableEq, Repr

/-- The zero value `domain.Binding` (nil credentials map). -/
def emptyBinding : Binding := ⟨[]⟩

/-- One lowercase hexadecimal digit. -/
def hexDigit (n : Nat) : Char :=
  if n < 10 then Char.ofNat (48 + n) else Char.ofNat (87 + n)

/-- One byte as two lowercase hexadecimal digits. -/
def hexEncodeByte (b : Nat) : Str := [hexDigit (b % 256 / 16), hexDigit (b % 16)]

/-- Go `hex.EncodeToString`. -/
def hexEncode (bs : List Nat) : Str := (bs.map hexEncodeByte).flatten

/-- Model of `crypto/rand.Read` filling an `n`-byte buffer from an entropy
stream: the bytes read and the remaining stream, or `none` when the entropy
source fails (stream exhausted). -/
def randRead (n : Nat) (ent : List Nat) : Option (List Nat × List Nat) :=
  if n ≤ ent.length then some (ent.take n, ent.drop n) else none

/-- `generateAccessKey` (minio broker): `n` random bytes, hex encoded. -/
def generateAccessKey (n : Nat) (ent : List Nat) : Option (Str × List Nat) :=
  match randRead n ent with
  | none => none
  | some (bytes, rest) => some (hexEncode bytes, rest)

/-- `generatePassword` (postgres broker): `n` random bytes, hex encoded. -/
def generatePassword (n : Nat) (ent : List Nat) : Option (Str × List Nat) :=
  match randRead n ent with
  | none => none
  | some (bytes, rest) => some (hexEncode bytes, rest)

/-- Go slice expression `s[:n]`: `none` models the panic when `n` exceeds the
length. -/
def goSlice (s : Str) (n : Nat) : Option Str :=
  if n ≤ s.length then some (s.take n) else none

/-- The minio `Broker` struct. -/
structure MinioBroker where
  endpoint : Str
  accessKey : Str
  secretKey : Str
  useSSL : Bool
deriving DecidableEq, Repr

/-- One bucket on the shared MinIO instance: name and number of stored objects
(`RemoveBucket` fails on a non-empty bucket). -/
structure Bucket where
  name : Str
  objects : Nat
deriving DecidableEq, Repr

/-- Modelled backing-engine state for the object-storage broker. -/
structure MinioState where
  buckets : List Bucket
deriving DecidableEq, Repr

/-- The engine's `BucketExists` check. -/
def bucketExists (st : MinioState) (n : Str) : Bool :=
  st.buckets.any (fun bk => bk.name == n)

/-- Mutating administrative calls the minio broker can issue. -/
inductive MinioCmd where
  | makeBucket (name : Str)
  | removeBucket (name : Str)
deriving DecidableEq, Repr

/-- Outcome of a minio broker operation: next engine state, trace of issued
mutations, Go return value, Go error. -/
structure MinioResult (α : Type) where
  state : MinioState
  trace : List MinioCmd
  value : α
  error : Option BrokerErr
deriving DecidableEq, Repr

/-- `Broker.bucketName` (minio): replace underscores with hyphens, lowercase,
prepend the `cf-` namespace, truncate to 63 characters. -/
def bucketName (instanceID : Str) : Str :=
  let safe := instanceID.map (fun c => if c == '_' then '-' else c)
  let safe2 := safe.map Char.toLower
  let name := str "cf-" ++ safe2
  if name.length > 63 then name.take 63 else name

/-- `Broker.Provision` (minio): reject when the bucket exists, else create it. -/
def minioProvision (st : MinioState) (instanceID : Str) : MinioResult Unit :=
  let bn := bucketName instanceID
  if bucketExists st bn then
    ⟨st, [], (), some BrokerErr.instanceAlreadyExists⟩
  else
    ⟨⟨Bucket.mk bn 0 :: st.buckets⟩, [MinioCmd.makeBucket bn], (), none⟩

/-- `Broker.Deprovision` (minio): no-op success when the bucket is absent, else
remove it (the engine refuses to remove a non-empty bucket). -/
def minioDeprovision (st : MinioState) (instanceID : Str) : MinioResult Unit :=
  let bn := bucketName instanceID
  if bucketExists st bn then
    if st.buckets.any (fun bk => bk.name == bn && bk.objects != 0) then
      ⟨st, [MinioCmd.removeBucket bn], (),
        some (BrokerErr.wrapped
          (str "failed to remove bucket " ++ bn ++ str " (it may not be empty)"))⟩
    else
      ⟨⟨st.buckets.filter (fun bk => !(bk.name == bn))⟩,
        [MinioCmd.removeBucket bn], (), none⟩
  else
    ⟨st, [], (), none⟩

/-- `Broker.Bind` (minio): require the bucket to exist, generate a 10-byte
access key and a 20-byte secret key, log `bindAccessKey[:8]` (the `goSlice`
that would panic on a short key), return the credentials map.  No engine
mutation is issued. -/
def minioBind (b : MinioBroker) (st : MinioState) (instanceID _bindingID : Str)
    (ent : List Nat) : Option (MinioResult Binding) :=
  let bn := bucketName instanceID
  if bucketExists st bn then
    match generateAccessKey 10 ent with
    | none => some ⟨st, [], emptyBinding,
        some (BrokerErr.wrapped (str "failed to generate random key"))⟩
    | some (bindAccessKey, ent1) =>
      match generateAccessKey 20 ent1 with
      | none => some ⟨st, [], emptyBinding,
          some (BrokerErr.wrapped (str "failed to generate random key"))⟩
      | some (bindSecretKey, _) =>
        match goSlice bindAccessKey 8 with
        | none => none
        | some _ =>
          some ⟨st, [],
            ⟨[(str "endpoint", CredValue.str b.endpoint),
              (str "access_key", CredValue.str bindAccessKey),
              (str "secret_key", CredValue.str bindSecretKey),
              (str "bucket", CredValue.str bn),
              (str "use_ssl", CredValue.bool b.useSSL),
              (str "uri", CredValue.str
                (str "s3://" ++ bindAccessKey ++ str ":" ++ bindSecretKey ++
                 str "@" ++ b.endpoint ++ str "/" ++ bn))]⟩,
            none⟩
  else
    some ⟨st, [], emptyBinding, some BrokerErr.instanceDoesNotExist⟩

/-- `Broker.Unbind` (minio): credential cleanup is a no-op; only logs. -/
def minioUnbind (st : MinioState) (_instanceID _bindingID : Str) :
    MinioResult Unit :=
  ⟨st, [], (), none⟩

/-- The postgres `Broker` struct. -/
structure PGBroker where
  host : Str
  port : Str
  adminUser : Str
  adminPass : Str
deriving DecidableEq, Repr

/-- Modelled backing-engine state for the relational broker: existing databases
and roles. -/
structure PGState where
  databases : List Str
  roles : List Str
deriving DecidableEq, Repr

/-- Administrative commands the postgres broker executes through `db.Exec`. -/
inductive PGCmd where
  | createDatabase (name : Str)
  | dropDatabaseIfExists (name : Str)
  | createRole (name : Str) (password : Str)
  | dropRoleIfExists (name : Str)
  | grant (db role : Str)
  | revoke (db role : Str)
  | terminateBackends (db : Str)
deriving DecidableEq, Repr

/-- The identifiers a command interpolates into its SQL text.  The
`terminateBackends` query passes its database name as the bound parameter `$1`
and interpolates nothing. -/
def PGCmd.interpolatedIdents : PGCmd → List Str
  | .createDatabase n => [n]
  | .dropDatabaseIfExists n => [n]
  | .createRole n _ => [n]
  | .dropRoleIfExists n => [n]
  | .grant d r => [d, r]
  | .revoke d r => [d, r]
  | .terminateBackends _ => []

/-- The single-quote character, written by code point to keep literals simple. -/
def squote : Char := Char.ofNat 39

/-- `quoteIdentifier`: wrap in double quotes, doubling embedded double quotes. -/
def quoteIdentifier (s : Str) : Str :=
  ['"'] ++ (s.map (fun c => if c == '"' then ['"', '"'] else [c])).flatten ++ ['"']

/-- `quoteLiteral`: wrap in single quotes, doubling embedded single quotes. -/
def quoteLiteral (s : Str) : Str :=
  [squote] ++ (s.map (fun c => if c == squote then [squote, squote] else [c])).flatten ++ [squote]

/-- The exact SQL texts the postgres broker builds with `fmt.Sprintf`. -/
def renderPGCmd : PGCmd → Str
  | .createDatabase n => str "CREATE DATABASE " ++ quoteIdentifier n
  | .dropDatabaseIfExists n => str "DROP DATABASE IF EXISTS " ++ quoteIdentifier n
  | .createRole n pw =>
      str "CREATE ROLE " ++ quoteIdentifier n ++ str " WITH LOGIN PASSWORD " ++ quoteLiteral pw
  | .dropRoleIfExists n => str "DROP ROLE IF EXISTS " ++ quoteIdentifier n
  | .grant d r =>
      str "GRANT ALL PRIVILEGES ON DATABASE " ++ quoteIdentifier d ++ str " TO " ++ quoteIdentifier r
  | .revoke d r =>
      str "REVOKE ALL PRIVILEGES ON DATABASE " ++ quoteIdentifier d ++ str " FROM " ++ quoteIdentifier r
  | .terminateBackends _ =>
      str "SELECT pg_terminate_backend(pid) FROM pg_stat_activity WHERE datname = $1 AND pid <> pg_backend_pid()"

/-- A `db.Exec` collaborator: takes a command and the engine state, returns the
new state and an optional engine error message. -/
abbrev PGExec := PGCmd → PGState → PGState × Option Str

/-- Modelled from the spec (section 6, backing-engine client collaborator):
semantics of the shared PostgreSQL engine for the commands the broker issues.
Creation fails when the resource exists, `IF EXISTS` removal always succeeds,
GRANT and REVOKE fail when the database or role is absent. -/
def pgExec : PGExec
  | PGCmd.createDatabase n, st =>
      if n ∈ st.databases then (st, some (str "database already exists"))
      else (⟨n :: st.databases, st.roles⟩, none)
  | PGCmd.dropDatabaseIfExists n, st => (⟨st.databases.erase n, st.roles⟩, none)
  | PGCmd.createRole n _, st =>
      if n ∈ st.roles then (st, some (str "role already exists"))
      else (⟨st.databases, n :: st.roles⟩, none)
  | PGCmd.dropRoleIfExists n, st => (⟨st.databases, st.roles.erase n⟩, none)
  | PGCmd.grant d r, st =>
      (st, if d ∈ st.databases ∧ r ∈ st.roles then none else some (str "does not exist"))
  | PGCmd.revoke d r, st =>
      (st, if d ∈ st.databases ∧ r ∈ st.roles then none else some (str "does not exist"))
  | PGCmd.terminateBackends _, st => (st, none)

/-- A character matched by `[a-zA-Z0-9_]`. -/
def wordChar (c : Char) : Bool := c.isAlphanum || c == '_'

/-- `sanitizeIdentifier`: replace hyphens with underscores, then remove every
character outside `[a-zA-Z0-9_]`. -/
def sanitizeIdentifier (id : Str) : Str :=
  let s := id.map (fun c => if c == '-' then '_' else c)
  s.filter wordChar

/-- `Broker.dbName` (postgres). -/
def dbName (instanceID : Str) : Str := str "cf_" ++ sanitizeIdentifier instanceID

/-- `Broker.roleName` (postgres). -/
def roleName (bindingID : Str) : Str := str "cf_" ++ sanitizeIdentifier bindingID

/-- `identifierPattern.MatchString`: the regex `^[a-zA-Z0-9_]+$`. -/
def identifierMatches (s : Str) : Bool := !s.isEmpty && s.all wordChar

/-- `validateIdentifier`: `none` on success, the invalid-identifier error
otherwise. -/
def validateIdentifier (name : Str) : Option BrokerErr :=
  if identifierMatches name then none else some (BrokerErr.invalidIdentifier name)

/-- Outcome of a postgres broker operation: next engine state, trace of
executed commands, Go return value, Go error. -/
structure PGResult (α : Type) where
  state : PGState
  trace : List PGCmd
  value : α
  error : Option BrokerErr
deriving DecidableEq, Repr

/-- `Broker.Provision` (postgres): validate, check existence via the
parameter-bound `pg_database` query, then `CREATE DATABASE`. -/
def pgProvision (exec : PGExec) (instanceID : Str) (st : PGState) : PGResult Unit :=
  let dn := dbName instanceID
  match validateIdentifier dn with
  | some e => ⟨st, [], (), some e⟩
  | none =>
    if dn ∈ st.databases then
      ⟨st, [], (), some BrokerErr.instanceAlreadyExists⟩
    else
      let p := exec (PGCmd.createDatabase dn) st
      match p.2 with
      | some m => ⟨p.1, [PGCmd.createDatabase dn], (),
          some (BrokerErr.wrapped (str "failed to create database " ++ dn ++ str ": " ++ m))⟩
      | none => ⟨p.1, [PGCmd.createDatabase dn], (), none⟩

/-- `Broker.Deprovision` (postgres): validate, terminate connections (failure
only logged), then `DROP DATABASE IF EXISTS`. -/
def pgDeprovision (exec : PGExec) (instanceID : Str) (st : PGState) : PGResult Unit :=
  let dn := dbName instanceID
  match validateIdentifier dn with
  | some e => ⟨st, [], (), some e⟩
  | none =>
    let p1 := exec (PGCmd.terminateBackends dn) st
    let p2 := exec (PGCmd.dropDatabaseIfExists dn) p1.1
    match p2.2 with
    | some m => ⟨p2.1, [PGCmd.terminateBackends dn, PGCmd.dropDatabaseIfExists dn], (),
        some (BrokerErr.wrapped (str "failed to drop database " ++ dn ++ str ": " ++ m))⟩
    | none => ⟨p2.1, [PGCmd.terminateBackends dn, PGCmd.dropDatabaseIfExists dn], (), none⟩

/-- `Broker.Bind` (postgres): validate both identifiers, generate a 16-byte
password, `CREATE ROLE`, `GRANT`, return the credentials map.  There is no
instance-existence check. -/
def pgBind (exec : PGExec) (b : PGBroker) (instanceID bindingID : Str)
    (ent : List Nat) (st : PGState) : PGResult Binding :=
  let dn := dbName instanceID
  let rn := roleName bindingID
  match validateIdentifier dn with
  | some e => ⟨st, [], emptyBinding, some e⟩
  | none =>
  match validateIdentifier rn with
  | some e => ⟨st, [], emptyBinding, some e⟩
  | none =>
  match generatePassword 16 ent with
  | none => ⟨st, [], emptyBinding,
      some (BrokerErr.wrapped (str "failed to generate random password"))⟩
  | some (password, _) =>
    let p1 := exec (PGCmd.createRole rn password) st
    match p1.2 with
    | some m => ⟨p1.1, [PGCmd.createRole rn password], emptyBinding,
        some (BrokerErr.wrapped (str "failed to create role " ++ rn ++ str ": " ++ m))⟩
    | none =>
      let p2 := exec (PGCmd.grant dn rn) p1.1
      match p2.2 with
      | some m => ⟨p2.1, [PGCmd.createRole rn password, PGCmd.grant dn rn], emptyBinding,
          some (BrokerErr.wrapped (str "failed to grant privileges: " ++ m))⟩
      | none =>
        ⟨p2.1, [PGCmd.createRole rn password, PGCmd.grant dn rn],
          ⟨[(str "host", CredValue.str b.host),
            (str "port", CredValue.str b.port),
            (str "database", CredValue.str dn),
            (str "username", CredValue.str rn),
            (str "password", CredValue.str password),
            (str "uri", CredValue.str
              (str "postgres://" ++ rn ++ str ":" ++ password ++ str "@" ++
               b.host ++ str ":" ++ b.port ++ str "/" ++ dn))]⟩,
          none⟩

/-- `Broker.Unbind` (postgres): validate both identifiers, `REVOKE` (failure
only logged), then `DROP ROLE IF EXISTS` (failure fatal). -/
def pgUnbind (exec : PGExec) (instanceID bindingID : Str) (st : PGState) : PGResult Unit :=
  let dn := dbName instanceID
  let rn := roleName bindingID
  match validateIdentifier dn with
  | some e => ⟨st, [], (), some e⟩
  | none =>
  match validateIdentifier rn with
  | some e => ⟨st, [], (), some e⟩
  | none =>
    let p1 := exec (PGCmd.revoke dn rn) st
    let p2 := exec (PGCmd.dropRoleIfExists rn) p1.1
    match p2.2 with
    | some m => ⟨p2.1, [PGCmd.revoke dn rn, PGCmd.dropRoleIfExists rn], (),
        some (BrokerErr.wrapped (str "failed to drop role " ++ rn ++ str ": " ++ m))⟩
    | none => ⟨p2.1, [PGCmd.revoke dn rn, PGCmd.dropRoleIfExists rn], (), none⟩

/-- `domain.GetBindingSpec`, restricted to the credentials field. -/
structure GetBindingSpec where
  credentials : List (Str × CredValue)
deriving DecidableEq, Repr

/-- `domain.GetInstanceDetailsSpec`, restricted to the identifying fields. -/
structure GetInstanceDetailsSpec where
  serviceID : Str
  planID : Str
deriving DecidableEq, Repr

/-- `domain.LastOperation`. -/
structure LastOperation where
  state : Str
  description : Str
deriving DecidableEq, Repr

/-- `domain.UpdateServiceSpec`, restricted to two fields. -/
structure UpdateServiceSpec where
  isAsync : Bool
  operationData : Str
deriving DecidableEq, Repr

/-- `Broker.GetBinding` (minio). -/
def minioGetBinding (_instanceID _bindingID : Str) : GetBindingSpec × Option BrokerErr :=
  (⟨[]⟩, some (BrokerErr.failureResponse (str "GetBinding not supported") 404 (str "not-found")))

/-- `Broker.GetInstance` (minio). -/
def minioGetInstance (_instanceID : Str) : GetInstanceDetailsSpec × Option BrokerErr :=
  (⟨[], []⟩, some (BrokerErr.failureResponse (str "GetInstance not supported") 404 (str "not-found")))

/-- `Broker.LastOperation` (minio). -/
def minioLastOperation (_instanceID : Str) : LastOperation × Option BrokerErr :=
  (⟨[], []⟩, some (BrokerErr.failureResponse (str "LastOperation not supported") 404 (str "not-found")))

/-- `Broker.LastBindingOperation` (minio). -/
def minioLastBindingOperation (_instanceID _bindingID : Str) : LastOperation × Option BrokerErr :=
  (⟨[], []⟩, some (BrokerErr.failureResponse (str "LastBindingOperation not supported") 404 (str "not-found")))

/-- `Broker.Update` (minio). -/
def minioUpdate (_instanceID : Str) : UpdateServiceSpec × Option BrokerErr :=
  (⟨false, []⟩, some (BrokerErr.failureResponse (str "Update not supported") 422 (str "unprocessable")))

/-- `Broker.GetBinding` (postgres). -/
def pgGetBinding (_instanceID _bindingID : Str) : GetBindingSpec × Option BrokerErr :=
  (⟨[]⟩, some (BrokerErr.failureResponse (str "GetBinding not supported") 404 (str "not-found")))

/-- `Broker.GetInstance` (postgres). -/
def pgGetInstance (_instanceID : Str) : GetInstanceDetailsSpec × Option BrokerErr :=
  (⟨[], []⟩, some (BrokerErr.failureResponse (str "GetInstance not supported") 404 (str "not-found")))

/-- `Broker.LastOperation` (postgres). -/
def pgLastOperation (_instanceID : Str) : LastOperation × Option BrokerErr :=
  (⟨[], []⟩, some (BrokerErr.failureResponse (str "LastOperation not supported") 404 (str "not-found")))

/-- `Broker.LastBindingOperation` (postgres). -/
def pgLastBindingOperation (_instanceID _bindingID : Str) : LastOperation × Option BrokerErr :=
  (⟨[], []⟩, some (BrokerErr.failureResponse (str "LastBindingOperation not supported") 404 (str "not-found")))

/-- `Broker.Update` (postgres). -/
def pgUpdate (_instanceID : Str) : UpdateServiceSpec × Option BrokerErr :=
  (⟨false, []⟩, some (BrokerErr.failureResponse (str "Update not supported") 422 (str "unprocessable")))

/-- Modelled from the spec (section 3): the object-storage bucket-name
alphabet, lowercase alphanumeric plus hyphen.  Spec-side definition, used only
to compare the code's derived names against the spec's constraint. -/
def specBucketChar (c : Char) : Bool := c.isLower || c.isDigit || c == '-'

/-- The injection-attempt instance identifier from the spec's test properties. -/
def injectionID : Str := str "x; DROP TABLE users; --"

/-- Substring occurrence test, used to check that a raw platform identifier
does not occur in a rendered command text. -/
def containsSub (needle : Str) : Str → Bool
  | [] => needle.isEmpty
  | c :: rest => needle.isPrefixOf (c :: rest) || containsSub needle rest

/-- A lowercase hexadecimal digit character. -/
def lowerHexChar (c : Char) : Bool := c.isDigit || ('a' ≤ c && c ≤ 'f')

/-- Whether an error is the `validateIdentifier` failure. -/
def isInvalidIdentErr : Option BrokerErr → Bool
  | some (BrokerErr.invalidIdentifier _) => true
  | _ => false

theorem char_ofNat_toNat_valid {n : Nat} (h : Nat.isValidChar n) :
    (Char.ofNat n).toNat = n := by
  unfold Char.ofNat
  rw [dif_pos h]
  rfl

theorem uint32_le_iff {a b : UInt32} : a ≤ b ↔ a.toNat ≤ b.toNat :=
  UInt32.le_def.trans BitVec.le_def

theorem char_isUpper_iff (c : Char) : c.isUpper = true ↔ 65 ≤ c.toNat ∧ c.toNat ≤ 90 := by
  simp only [Char.isUpper, Bool.and_eq_true, decide_eq_true_eq]
  constructor
  · rintro ⟨h1, h2⟩
    exact ⟨uint32_le_iff.mp h1, uint32_le_iff.mp h2⟩
  · rintro ⟨h1, h2⟩
    exact ⟨uint32_le_iff.mpr h1, uint32_le_iff.mpr h2⟩

theorem char_isUpper_toLower (c : Char) : (Char.toLower c).isUpper = false := by
  unfold Char.toLower
  dsimp only
  split
  · rename_i h
    have hv : Nat.isValidChar (Char.toNat c + 32) := by left; omega
    have ht : (Char.ofNat (c.toNat + 32)).toNat = c.toNat + 32 := char_ofNat_toNat_valid hv
    by_contra hb
    rw [Bool.not_eq_false] at hb
    have := (char_isUpper_iff _).mp hb
    omega
  · rename_i h
    by_contra hb
    rw [Bool.not_eq_false] at hb
    have := (char_isUpper_iff _).mp hb
    omega

theorem char_toLower_eq_self {c : Char} (h : c.isUpper = false) : Char.toLower c = c := by
  unfold Char.toLower
  dsimp only
  rw [if_neg]
  intro hc
  have := (char_isUpper_iff c).mpr ⟨hc.1, hc.2⟩
  rw [h] at this
  exact Bool.noConfusion this

theorem char_toLower_ne_underscore {c : Char} (h : c ≠ '_') : Char.toLower c ≠ '_' := by
  unfold Char.toLower
  dsimp only
  split
  · rename_i hr
    intro he
    have hv : Nat.isValidChar (Char.toNat c + 32) := by left; omega
    have ht : (Char.ofNat (c.toNat + 32)).toNat = c.toNat + 32 := char_ofNat_toNat_valid hv
    have h95 : ('_' : Char).toNat = 95 := rfl
    rw [he] at ht
    omega
  · exact h

theorem list_map_id_of_mem {α : Type} {l : List α} {f : α → α}
    (h : ∀ a ∈ l, f a = a) : l.map f = l := by
  induction l with
  | nil => rfl
  | cons a t ih =>
    simp only [List.map_cons, List.cons.injEq]
    exact ⟨h a (List.mem_cons_self a t), ih fun b hb => h b (List.mem_cons_of_mem a hb)⟩

theorem hexDigit_lowerHex {n : Nat} (h : n < 16) : lowerHexChar (hexDigit n) = true := by
  interval_cases n <;> decide

theorem hexEncodeByte_lowerHex (b : Nat) : ∀ c ∈ hexEncodeByte b, lowerHexChar c = true := by
  intro c hc
  have h1 : b % 256 / 16 < 16 := by
    apply (Nat.div_lt_iff_lt_mul (by omega)).mpr
    have := Nat.mod_lt b (show 0 < 256 by omega)
    omega
  have h2 : b % 16 < 16 := Nat.mod_lt _ (by omega)
  simp only [hexEncodeByte, List.mem_cons, List.not_mem_nil, or_false] at hc
  rcases hc with h | h
  · subst h
    exact hexDigit_lowerHex h1
  · subst h
    exact hexDigit_lowerHex h2

theorem hexEncode_length (bs : List Nat) : (hexEncode bs).length = 2 * bs.length := by
  induction bs with
  | nil => rfl
  | cons b t ih =>
    simp only [hexEncode, List.map_cons, List.flatten_cons, List.length_append] at *
    simp [hexEncodeByte] at *
    omega

theorem hexEncode_lowerHex (bs : List Nat) : (hexEncode bs).all lowerHexChar = true := by
  rw [List.all_eq_true]
  intro c hc
  simp only [hexEncode, List.mem_flatten, List.mem_map] at hc
  obtain ⟨l, ⟨b, _, rfl⟩, hcl⟩ := hc
  exact hexEncodeByte_lowerHex b c hcl

theorem sanitize_all_word (id : Str) : (sanitizeIdentifier id).all wordChar = true := by
  rw [List.all_eq_true]
  intro c hc
  exact (List.mem_filter.mp hc).2

theorem identifierMatches_dbName (instanceID : Str) :
    identifierMatches (dbName instanceID) = true := by
  simp only [identifierMatches, dbName, Bool.and_eq_true]
  constructor
  · rfl
  · rw [List.all_append]
    simp only [Bool.and_eq_true]
    exact ⟨by decide, sanitize_all_word instanceID⟩

theorem identifierMatches_roleName (bindingID : Str) :
    identifierMatches (roleName bindingID) = true :=
  identifierMatches_dbName bindingID

theorem validateIdentifier_dbName (instanceID : Str) :
    validateIdentifier (dbName instanceID) = none := by
  simp [validateIdentifier, identifierMatches_dbName]

theorem validateIdentifier_roleName (bindingID : Str) :
    validateIdentifier (roleName bindingID) = none := by
  simp [validateIdentifier, identifierMatches_roleName]

theorem bucketName_shape (instanceID : Str) :
    bucketName instanceID =
      (str "cf-" ++
        (instanceID.map (fun c => if c == '_' then '-' else c)).map Char.toLower).take 63 := by
  unfold bucketName
  dsimp only
  split
  · rfl
  · rename_i h
    rw [List.take_of_length_le]
    omega

theorem bucketName_length_le (instanceID : Str) : (bucketName instanceID).length ≤ 63 := by
  rw [bucketName_shape, List.length_take]
  omega

theorem bucketName_take3 (instanceID : Str) :
    (bucketName instanceID).take 3 = str "cf-" := by
  rw [bucketName_shape, List.take_take]
  have h3 : min 3 63 = 3 := by omega
  rw [h3, List.take_append_of_le_length (by decide)]
  rfl

theorem bucketName_mem {c : Char} {instanceID : Str} (h : c ∈ bucketName instanceID) :
    c ∈ str "cf-" ∨ ∃ x, c = Char.toLower (if x == '_' then '-' else x) := by
  rw [bucketName_shape] at h
  have h2 := List.take_subset 63 _ h
  rw [List.mem_append] at h2
  rcases h2 with h2 | h2
  · exact Or.inl h2
  · right
    simp only [List.mem_map] at h2
    obtain ⟨x, ⟨y, _, rfl⟩, rfl⟩ := h2
    exact ⟨y, rfl⟩

theorem bucketName_no_upper {c : Char} {instanceID : Str} (h : c ∈ bucketName instanceID) :
    c.isUpper = false := by
  rcases bucketName_mem h with h2 | ⟨x, rfl⟩
  · simp only [show str "cf-" = ['c', 'f', '-'] from rfl, List.mem_cons,
      List.not_mem_nil, or_false] at h2
    rcases h2 with rfl | rfl | rfl <;> decide
  · exact char_isUpper_toLower _

theorem bucketName_no_underscore {c : Char} {instanceID : Str} (h : c ∈ bucketName instanceID) :
    c ≠ '_' := by
  rcases bucketName_mem h with h2 | ⟨x, rfl⟩
  · simp only [show str "cf-" = ['c', 'f', '-'] from rfl, List.mem_cons,
      List.not_mem_nil, or_false] at h2
    rcases h2 with rfl | rfl | rfl <;> decide
  · apply char_toLower_ne_underscore
    split
    · decide
    · rename_i hx
      intro he
      subst he
      simp at hx

theorem char_isLower_iff (c : Char) : c.isLower = true ↔ 97 ≤ c.toNat ∧ c.toNat ≤ 122 := by
  simp only [Char.isLower, Bool.and_eq_true, decide_eq_true_eq]
  constructor
  · rintro ⟨h1, h2⟩
    exact ⟨uint32_le_iff.mp h1, uint32_le_iff.mp h2⟩
  · rintro ⟨h1, h2⟩
    exact ⟨uint32_le_iff.mpr h1, uint32_le_iff.mpr h2⟩

theorem char_isDigit_iff (c : Char) : c.isDigit = true ↔ 48 ≤ c.toNat ∧ c.toNat ≤ 57 := by
  simp only [Char.isDigit, Bool.and_eq_true, decide_eq_true_eq]
  constructor
  · rintro ⟨h1, h2⟩
    exact ⟨uint32_le_iff.mp h1, uint32_le_iff.mp h2⟩
  · rintro ⟨h1, h2⟩
    exact ⟨uint32_le_iff.mpr h1, uint32_le_iff.mpr h2⟩

theorem bucketSafe_not_upper {c : Char}
    (h : (c.isLower || c.isDigit || c == '-') = true) : c.isUpper = false := by
  by_contra hb
  rw [Bool.not_eq_false] at hb
  have hu := (char_isUpper_iff c).mp hb
  simp only [Bool.or_eq_true, beq_iff_eq] at h
  rcases h with (h | h) | h
  · have := (char_isLower_iff c).mp h
    omega
  · have := (char_isDigit_iff c).mp h
    omega
  · subst h
    have : ('-' : Char).toNat = 45 := rfl
    omega

theorem bucketSafe_ne_underscore {c : Char}
    (h : (c.isLower || c.isDigit || c == '-') = true) : c ≠ '_' := by
  intro he
  subst he
  simp only [Bool.or_eq_true, beq_iff_eq] at h
  rcases h with (h | h) | h <;> revert h <;> decide

theorem bucketName_canonical {s : Str}
    (hall : s.all (fun c => c.isLower || c.isDigit || c == '-') = true)
    (hlen : s.length ≤ 60) : bucketName s = str "cf-" ++ s := by
  rw [List.all_eq_true] at hall
  have hmap1 : s.map (fun c => if c == '_' then '-' else c) = s := by
    apply list_map_id_of_mem
    intro a ha
    rw [if_neg]
    simp only [beq_iff_eq]
    exact bucketSafe_ne_underscore (hall a ha)
  have hmap2 : s.map Char.toLower = s := by
    apply list_map_id_of_mem
    intro a ha
    exact char_toLower_eq_self (bucketSafe_not_upper (hall a ha))
  rw [bucketName_shape, hmap1, hmap2, List.take_of_length_le]
  simp only [List.length_append]
  have : (str "cf-").length = 3 := rfl
  omega

theorem wordChar_ne_hyphen {c : Char} (h : wordChar c = true) : c ≠ '-' := by
  intro he
  subst he
  revert h
  decide

theorem dbName_canonical {s : Str} (hall : s.all wordChar = true) :
    dbName s = str "cf_" ++ s := by
  rw [List.all_eq_true] at hall
  have hmap : s.map (fun c => if c == '-' then '_' else c) = s := by
    apply list_map_id_of_mem
    intro a ha
    rw [if_neg]
    simp only [beq_iff_eq]
    exact wordChar_ne_hyphen (hall a ha)
  unfold dbName sanitizeIdentifier
  dsimp only
  rw [hmap, List.filter_eq_self.mpr hall]

/-- C2 counterexample: for InstanceID `"a!"` the derived bucket name is
`"cf-a!"`, which keeps the character `'!'` even though it is outside the
bucket-name alphabet; and for a 100-character InstanceID the derived SQL name
has length 103, above the engine's 63-character identifier limit, because
`dbName` never truncates. -/
theorem c2_counterexample :
    (bucketName (str "a!") = str "cf-a!" ∧
      '!' ∈ bucketName (str "a!") ∧ specBucketChar '!' = false) ∧
    ((dbName (List.replicate 100 'a')).length = 103 ∧
      ¬((dbName (List.replicate 100 'a')).length ≤ 63)) := by
  constructor
  · exact ⟨by decide, by decide, by decide⟩
  · exact ⟨by decide, by decide⟩

/-- C2 (amended): for every InstanceID the derived bucket name has length at
most 63, truncation is applied after the `cf-` namespace so the first three
characters are always `cf-`, and the name contains no uppercase ASCII letter
and no underscore; the derived SQL database name always matches
`^[a-zA-Z0-9_]+$`.  The code, however, passes bucket-name characters other
than underscores and uppercase letters through unchanged even when they are
outside the bucket alphabet, and applies no length bound to SQL names (see the
counterexample). -/
theorem c2_amended (instanceID : Str) :
    (bucketName instanceID).length ≤ 63 ∧
    (bucketName instanceID).take 3 = str "cf-" ∧
    (∀ c ∈ bucketName instanceID, c.isUpper = false ∧ c ≠ '_') ∧
    identifierMatches (dbName instanceID) = true :=
  ⟨bucketName_length_le instanceID, bucketName_take3 instanceID,
   fun _ hc => ⟨bucketName_no_upper hc, bucketName_no_underscore hc⟩,
   identifierMatches_dbName instanceID⟩

/-- Witness for C2 on the concrete InstanceID `"My_App"`, discharging the
membership hypothesis of the character clause at the character `'c'`. -/
theorem c2_witness : 'c'.isUpper = false ∧ 'c' ≠ '_' :=
  (c2_amended (str "My_App")).2.2.1 'c' (by decide)

/-- C5 counterexample: the InstanceIDs `"a_b"` and `"a-b"` are distinct but
derive the same bucket name and the same SQL database name, so the derived
resource name is not injective on InstanceIDs. -/
theorem c5_counterexample :
    (str "a_b" ≠ str "a-b" ∧ bucketName (str "a_b") = bucketName (str "a-b")) ∧
    (str "a-b" ≠ str "a_b" ∧ dbName (str "a-b") = dbName (str "a_b")) := by
  exact ⟨⟨by decide, by decide⟩, by decide, by decide⟩

/-- C5 (amended): the derived names are pure deterministic functions of the
InstanceID alone, and they are injective on engine-canonical identifiers —
`bucketName` on IDs of lowercase letters, digits and hyphens with length at
most 60, `dbName` on IDs over `[a-zA-Z0-9_]`.  In general, distinct
InstanceIDs differing only by letter case, hyphen versus underscore, removed
characters, or content beyond the truncation point derive the same name. -/
theorem c5_amended :
    (∀ s t : Str, s = t → bucketName s = bucketName t ∧ dbName s = dbName t) ∧
    (∀ s t : Str,
        s.all (fun c => c.isLower || c.isDigit || c == '-') = true →
        t.all (fun c => c.isLower || c.isDigit || c == '-') = true →
        s.length ≤ 60 → t.length ≤ 60 →
        bucketName s = bucketName t → s = t) ∧
    (∀ s t : Str, s.all wordChar = true → t.all wordChar = true →
        dbName s = dbName t → s = t) := by
  refine ⟨fun s t h => by rw [h]; exact ⟨rfl, rfl⟩, ?_, ?_⟩
  · intro s t hs ht hsl htl heq
    rw [bucketName_canonical hs hsl, bucketName_canonical ht htl] at heq
    exact List.append_cancel_left heq
  · intro s t hs ht heq
    rw [dbName_canonical hs, dbName_canonical ht] at heq
    exact List.append_cancel_left heq

/-- Witness for C5 at the concrete canonical InstanceID `"app-42"`: the
injectivity clauses applied with both arguments `"app-42"` (bucket) and
`"app_42"` (SQL), discharging every hypothesis by evaluation. -/
theorem c5_witness : str "app-42" = str "app-42" ∧ str "app_42" = str "app_42" :=
  ⟨(c5_amended.2.1) (str "app-42") (str "app-42") (by decide) (by decide)
      (by decide) (by decide) rfl,
   (c5_amended.2.2) (str "app_42") (str "app_42") (by decide) (by decide) rfl⟩

/-- C8 (confirmed): the unsupported operations of both brokers return their
zero-valued result together with a fixed failure response — status 404 with
logger action `not-found` for GetBinding, GetInstance, LastOperation and
LastBindingOperation, status 422 with `unprocessable` for Update — independent
of the identifiers supplied. -/
theorem c8_unsupported_fixed :
    ∀ instanceID bindingID : Str,
      minioGetBinding instanceID bindingID =
        (⟨[]⟩, some (BrokerErr.failureResponse (str "GetBinding not supported") 404 (str "not-found"))) ∧
      minioGetInstance instanceID =
        (⟨[], []⟩, some (BrokerErr.failureResponse (str "GetInstance not supported") 404 (str "not-found"))) ∧
      minioLastOperation instanceID =
        (⟨[], []⟩, some (BrokerErr.failureResponse (str "LastOperation not supported") 404 (str "not-found"))) ∧
      minioLastBindingOperation instanceID bindingID =
        (⟨[], []⟩, some (BrokerErr.failureResponse (str "LastBindingOperation not supported") 404 (str "not-found"))) ∧
      minioUpdate instanceID =
        (⟨false, []⟩, some (BrokerErr.failureResponse (str "Update not supported") 422 (str "unprocessable"))) ∧
      pgGetBinding instanceID bindingID =
        (⟨[]⟩, some (BrokerErr.failureResponse (str "GetBinding not supported") 404 (str "not-found"))) ∧
      pgGetInstance instanceID =
        (⟨[], []⟩, some (BrokerErr.failureResponse (str "GetInstance not supported") 404 (str "not-found"))) ∧
      pgLastOperation instanceID =
        (⟨[], []⟩, some (BrokerErr.failureResponse (str "LastOperation not supported") 404 (str "not-found"))) ∧
      pgLastBindingOperation instanceID bindingID =
        (⟨[], []⟩, some (BrokerErr.failureResponse (str "LastBindingOperation not supported") 404 (str "not-found"))) ∧
      pgUpdate instanceID =
        (⟨false, []⟩, some (BrokerErr.failureResponse (str "Update not supported") 422 (str "unprocessable"))) := by
  intro instanceID bindingID
  exact ⟨rfl, rfl, rfl, rfl, rfl, rfl, rfl, rfl, rfl, rfl⟩

/-- C7 (confirmed): the object-storage broker's Unbind always succeeds (it is a
pure no-op), while the relational broker's Unbind propagates exactly the result
of the `DROP ROLE IF EXISTS` execution: a revoke failure is only logged, a drop
failure is returned as the wrapped fatal error. -/
theorem c7_unbind_policy :
    (∀ (st : MinioState) (instanceID bindingID : Str),
      minioUnbind st instanceID bindingID = ⟨st, [], (), none⟩) ∧
    (∀ (exec : PGExec) (instanceID bindingID : Str) (st : PGState),
      (pgUnbind exec instanceID bindingID st).error =
        ((exec (PGCmd.dropRoleIfExists (roleName bindingID))
            (exec (PGCmd.revoke (dbName instanceID) (roleName bindingID)) st).1).2).map
          (fun m => BrokerErr.wrapped
            (str "failed to drop role " ++ roleName bindingID ++ str ": " ++ m))) := by
  constructor
  · intro st instanceID bindingID
    rfl
  · intro exec instanceID bindingID st
    simp only [pgUnbind, validateIdentifier_dbName, validateIdentifier_roleName]
    rcases hm : (exec (PGCmd.dropRoleIfExists (roleName bindingID))
        (exec (PGCmd.revoke (dbName instanceID) (roleName bindingID)) st).1).2 with _ | m
    · simp [hm]
    · simp [hm]

/-- C9 (confirmed): sanitization guarantees validation — for every InstanceID
and BindingID the derived database and role names pass `validateIdentifier`
(the `cf_` namespace makes them non-empty and sanitization leaves only
`[a-zA-Z0-9_]`), so the invalid-identifier error branches of Provision,
Deprovision, Bind and Unbind are unreachable for every engine behaviour. -/
theorem c9_validation_unreachable :
    ∀ instanceID bindingID : Str,
      validateIdentifier (dbName instanceID) = none ∧
      validateIdentifier (roleName bindingID) = none ∧
      (∀ (exec : PGExec) (st : PGState),
        isInvalidIdentErr (pgProvision exec instanceID st).error = false ∧
        isInvalidIdentErr (pgDeprovision exec instanceID st).error = false ∧
        isInvalidIdentErr (pgUnbind exec instanceID bindingID st).error = false) ∧
      (∀ (exec : PGExec) (b : PGBroker) (ent : List Nat) (st : PGState),
        isInvalidIdentErr (pgBind exec b instanceID bindingID ent st).error = false) := by
  intro instanceID bindingID
  refine ⟨validateIdentifier_dbName instanceID, validateIdentifier_roleName bindingID, ?_, ?_⟩
  · intro exec st
    refine ⟨?_, ?_, ?_⟩
    · simp only [pgProvision, validateIdentifier_dbName]
      split
      · rfl
      · split <;> rfl
    · simp only [pgDeprovision, validateIdentifier_dbName]
      split <;> rfl
    · simp only [pgUnbind, validateIdentifier_dbName, validateIdentifier_roleName]
      split <;> rfl
  · intro exec b ent st
    simp only [pgBind, validateIdentifier_dbName, validateIdentifier_roleName]
    split
    · rfl
    · split
      · rfl
      · split <;> rfl

/-- C1 counterexample: Bind on the relational broker with a non-existent
instance (empty engine state) does NOT return the does-not-exist sentinel; it
fails at the GRANT step with a wrapped upstream error, after having created
the binding role. -/
theorem c1_counterexample :
    dbName (str "abc") ∉ (PGState.mk [] []).databases ∧
    (pgBind pgExec ⟨str "localhost", str "5432", str "postgres", str "postgres"⟩
        (str "abc") (str "b1") (List.replicate 16 0) ⟨[], []⟩).error ≠
      some BrokerErr.instanceDoesNotExist ∧
    (pgBind pgExec ⟨str "localhost", str "5432", str "postgres", str "postgres"⟩
        (str "abc") (str "b1") (List.replicate 16 0) ⟨[], []⟩).error =
      some (BrokerErr.wrapped (str "failed to grant privileges: " ++ str "does not exist")) ∧
    (pgBind pgExec ⟨str "localhost", str "5432", str "postgres", str "postgres"⟩
        (str "abc") (str "b1") (List.replicate 16 0) ⟨[], []⟩).state.roles =
      [roleName (str "b1")] := by
  exact ⟨by decide, by decide, by decide, by decide⟩

/-- C1 (amended): Bind on a non-existent InstanceID yields the does-not-exist
error with an empty credentials map for the object-storage broker only.  The
relational broker performs no existence check: with the database absent (and a
fresh binding role) its Bind creates the role, then fails at the GRANT step
with a wrapped upstream error — not the does-not-exist sentinel — returning
empty credentials but leaving the new role behind in the engine. -/
theorem c1_amended :
    (∀ (b : MinioBroker) (st : MinioState) (instanceID bindingID : Str) (ent : List Nat),
      bucketExists st (bucketName instanceID) = false →
      minioBind b st instanceID bindingID ent =
        some ⟨st, [], emptyBinding, some BrokerErr.instanceDoesNotExist⟩) ∧
    (∀ (b : PGBroker) (instanceID bindingID : Str) (ent : List Nat) (st : PGState),
      dbName instanceID ∉ st.databases → roleName bindingID ∉ st.roles →
      16 ≤ ent.length →
      (pgBind pgExec b instanceID bindingID ent st).error =
          some (BrokerErr.wrapped (str "failed to grant privileges: " ++ str "does not exist")) ∧
        (pgBind pgExec b instanceID bindingID ent st).value = emptyBinding ∧
        (pgBind pgExec b instanceID bindingID ent st).state =
          ⟨st.databases, roleName bindingID :: st.roles⟩) := by
  constructor
  · intro b st instanceID bindingID ent h
    simp [minioBind, h]
  · intro b instanceID bindingID ent st hdb hrole hent
    have hpw : generatePassword 16 ent = some (hexEncode (ent.take 16), ent.drop 16) := by
      simp [generatePassword, randRead, hent]
    have hcr : pgExec (PGCmd.createRole (roleName bindingID) (hexEncode (ent.take 16))) st =
        (⟨st.databases, roleName bindingID :: st.roles⟩, none) := by
      simp only [pgExec]
      rw [if_neg hrole]
    have hgr : pgExec (PGCmd.grant (dbName instanceID) (roleName bindingID))
        ⟨st.databases, roleName bindingID :: st.roles⟩ =
        (⟨st.databases, roleName bindingID :: st.roles⟩, some (str "does not exist")) := by
      simp only [pgExec]
      rw [if_neg]
      intro hc
      exact hdb hc.1
    simp only [pgBind, validateIdentifier_dbName, validateIdentifier_roleName, hpw, hcr, hgr]
    exact ⟨trivial, trivial, trivial⟩

/-- Witness for C1 at concrete inputs: an empty object-storage engine and an
empty relational engine, with a 16-byte entropy stream. -/
theorem c1_witness :
    minioBind ⟨str "localhost:9000", str "admin", str "secret", false⟩ ⟨[]⟩
        (str "abc") (str "b1") [] =
      some ⟨⟨[]⟩, [], emptyBinding, some BrokerErr.instanceDoesNotExist⟩ ∧
    (pgBind pgExec ⟨str "localhost", str "5432", str "postgres", str "postgres"⟩
        (str "xyz") (str "b2") (List.replicate 16 7) ⟨[], []⟩).value = emptyBinding :=
  ⟨c1_amended.1 ⟨str "localhost:9000", str "admin", str "secret", false⟩ ⟨[]⟩
      (str "abc") (str "b1") [] (by decide),
   (c1_amended.2 ⟨str "localhost", str "5432", str "postgres", str "postgres"⟩
      (str "xyz") (str "b2") (List.replicate 16 7) ⟨[], []⟩
      (by decide) (by decide) (by decide)).2.1⟩

/-- C4 (confirmed): Provision is not idempotent.  When the derived resource is
absent, Provision succeeds and creates it; a second Provision with the same
InstanceID hits the existence check, fails with the already-exists sentinel,
issues no command, and leaves the backing state unchanged — in both brokers. -/
theorem c4_provision_not_idempotent :
    (∀ (st : MinioState) (instanceID : Str),
      bucketExists st (bucketName instanceID) = false →
      (minioProvision st instanceID).error = none ∧
      (minioProvision st instanceID).state =
        ⟨Bucket.mk (bucketName instanceID) 0 :: st.buckets⟩ ∧
      minioProvision (minioProvision st instanceID).state instanceID =
        ⟨(minioProvision st instanceID).state, [], (),
          some BrokerErr.instanceAlreadyExists⟩) ∧
    (∀ (instanceID : Str) (st : PGState),
      dbName instanceID ∉ st.databases →
      (pgProvision pgExec instanceID st).error = none ∧
      (pgProvision pgExec instanceID st).state =
        ⟨dbName instanceID :: st.databases, st.roles⟩ ∧
      pgProvision pgExec instanceID (pgProvision pgExec instanceID st).state =
        ⟨(pgProvision pgExec instanceID st).state, [], (),
          some BrokerErr.instanceAlreadyExists⟩) := by
  constructor
  · intro st instanceID h
    have h1 : minioProvision st instanceID =
        ⟨⟨Bucket.mk (bucketName instanceID) 0 :: st.buckets⟩,
          [MinioCmd.makeBucket (bucketName instanceID)], (), none⟩ := by
      simp [minioProvision, h]
    have h2 : bucketExists ⟨Bucket.mk (bucketName instanceID) 0 :: st.buckets⟩
        (bucketName instanceID) = true := by
      simp [bucketExists]
    refine ⟨by rw [h1], by rw [h1], ?_⟩
    rw [h1]
    simp [minioProvision, h2]
  · intro instanceID st hdb
    have hcd : pgExec (PGCmd.createDatabase (dbName instanceID)) st =
        (⟨dbName instanceID :: st.databases, st.roles⟩, none) := by
      simp only [pgExec]
      rw [if_neg hdb]
    have h1 : pgProvision pgExec instanceID st =
        ⟨⟨dbName instanceID :: st.databases, st.roles⟩,
          [PGCmd.createDatabase (dbName instanceID)], (), none⟩ := by
      simp only [pgProvision, validateIdentifier_dbName, hcd]
      rw [if_neg hdb]
    refine ⟨by rw [h1], by rw [h1], ?_⟩
    rw [h1]
    simp only [pgProvision, validateIdentifier_dbName]
    rw [if_pos (List.mem_cons_self _ _)]

/-- Witness for C4: an empty object-storage engine and an empty relational
engine, both provisioned twice with the same InstanceID. -/
theorem c4_witness :
    (minioProvision ⟨[]⟩ (str "abc")).error = none ∧
    (pgProvision pgExec (str "abc") ⟨[], []⟩).error = none :=
  ⟨(c4_provision_not_idempotent.1 ⟨[]⟩ (str "abc") (by decide)).1,
   (c4_provision_not_idempotent.2 (str "abc") ⟨[], []⟩ (by decide)).1⟩

/-- C6 (confirmed): Deprovision is idempotent on absence.  With the derived
resource absent, the object-storage broker returns success without issuing any
removal command and leaves the state unchanged; the relational broker returns
success, its only commands being the parameter-bound backend-termination query
and `DROP DATABASE IF EXISTS`, which cannot fail on an absent database, and the
state is unchanged. -/
theorem c6_deprovision_idempotent :
    (∀ (st : MinioState) (instanceID : Str),
      bucketExists st (bucketName instanceID) = false →
      minioDeprovision st instanceID = ⟨st, [], (), none⟩) ∧
    (∀ (instanceID : Str) (st : PGState),
      dbName instanceID ∉ st.databases →
      pgDeprovision pgExec instanceID st =
        ⟨st, [PGCmd.terminateBackends (dbName instanceID),
              PGCmd.dropDatabaseIfExists (dbName instanceID)], (), none⟩) := by
  constructor
  · intro st instanceID h
    simp [minioDeprovision, h]
  · intro instanceID st hdb
    obtain ⟨dbs, roles⟩ := st
    simp only [pgDeprovision, validateIdentifier_dbName, pgExec]
    rw [List.erase_of_not_mem hdb]

/-- Witness for C6: deprovisioning a never-provisioned instance on empty
engines. -/
theorem c6_witness :
    minioDeprovision ⟨[]⟩ (str "gone") = ⟨⟨[]⟩, [], (), none⟩ ∧
    pgDeprovision pgExec (str "gone") ⟨[], []⟩ =
      ⟨⟨[], []⟩, [PGCmd.terminateBackends (dbName (str "gone")),
                  PGCmd.dropDatabaseIfExists (dbName (str "gone"))], (), none⟩ :=
  ⟨c6_deprovision_idempotent.1 ⟨[]⟩ (str "gone") (by decide),
   c6_deprovision_idempotent.2 (str "gone") ⟨[], []⟩ (by decide)⟩

theorem pgProvision_trace_shape (exec : PGExec) (instanceID : Str) (st : PGState) :
    ∀ cmd ∈ (pgProvision exec instanceID st).trace,
      cmd = PGCmd.createDatabase (dbName instanceID) := by
  intro cmd hc
  simp only [pgProvision, validateIdentifier_dbName] at hc
  split at hc
  · simp at hc
  · split at hc <;> simpa using hc

theorem pgDeprovision_trace_shape (exec : PGExec) (instanceID : Str) (st : PGState) :
    ∀ cmd ∈ (pgDeprovision exec instanceID st).trace,
      cmd = PGCmd.terminateBackends (dbName instanceID) ∨
      cmd = PGCmd.dropDatabaseIfExists (dbName instanceID) := by
  intro cmd hc
  simp only [pgDeprovision, validateIdentifier_dbName] at hc
  split at hc <;> simpa using hc

theorem pgBind_trace_shape (exec : PGExec) (b : PGBroker) (instanceID bindingID : Str)
    (ent : List Nat) (st : PGState) :
    ∀ cmd ∈ (pgBind exec b instanceID bindingID ent st).trace,
      (∃ pw, cmd = PGCmd.createRole (roleName bindingID) pw) ∨
      cmd = PGCmd.grant (dbName instanceID) (roleName bindingID) := by
  intro cmd hc
  simp only [pgBind, validateIdentifier_dbName, validateIdentifier_roleName] at hc
  split at hc
  · simp at hc
  · split at hc
    · simp at hc
      exact Or.inl ⟨_, hc⟩
    · split at hc
      · simp at hc
        rcases hc with hc | hc
        · exact Or.inl ⟨_, hc⟩
        · exact Or.inr hc
      · simp at hc
        rcases hc with hc | hc
        · exact Or.inl ⟨_, hc⟩
        · exact Or.inr hc

theorem pgUnbind_trace_shape (exec : PGExec) (instanceID bindingID : Str) (st : PGState) :
    ∀ cmd ∈ (pgUnbind exec instanceID bindingID st).trace,
      cmd = PGCmd.revoke (dbName instanceID) (roleName bindingID) ∨
      cmd = PGCmd.dropRoleIfExists (roleName bindingID) := by
  intro cmd hc
  simp only [pgUnbind, validateIdentifier_dbName, validateIdentifier_roleName] at hc
  split at hc <;> simpa using hc

/-- C3 (confirmed): the injection-attempt InstanceID sanitizes to the benign
identifier `cf_xDROPTABLEusers__` containing only `[a-zA-Z0-9_]`; every
identifier interpolated into any administrative command executed by Provision,
Deprovision, Bind or Unbind is a derived name that passes the
`^[a-zA-Z0-9_]+$` validator, for every engine behaviour and all inputs; and
rendering the commands actually issued for concrete runs on the injection
input interpolates identifiers only through `quoteIdentifier`, so the raw
platform-supplied identifier never occurs in any executed command text. -/
theorem c3_injection_prevented :
    (dbName injectionID = str "cf_xDROPTABLEusers__" ∧
      identifierMatches (dbName injectionID) = true) ∧
    (∀ (exec : PGExec) (b : PGBroker) (instanceID bindingID : Str)
        (ent : List Nat) (st : PGState) (cmd : PGCmd),
      (cmd ∈ (pgProvision exec instanceID st).trace ∨
       cmd ∈ (pgDeprovision exec instanceID st).trace ∨
       cmd ∈ (pgBind exec b instanceID bindingID ent st).trace ∨
       cmd ∈ (pgUnbind exec instanceID bindingID st).trace) →
      ∀ idn ∈ cmd.interpolatedIdents, identifierMatches idn = true) ∧
    ((pgProvision pgExec injectionID ⟨[], []⟩).trace ++
     (pgDeprovision pgExec injectionID ⟨[dbName injectionID], []⟩).trace ++
     (pgBind pgExec ⟨str "localhost", str "5432", str "postgres", str "postgres"⟩
        injectionID injectionID (List.replicate 16 0)
        ⟨[dbName injectionID], []⟩).trace ++
     (pgUnbind pgExec injectionID injectionID
        ⟨[dbName injectionID], [roleName injectionID]⟩).trace).all
      (fun cmd => !containsSub injectionID (renderPGCmd cmd)) = true := by
  refine ⟨⟨by decide, by decide⟩, ?_, by decide⟩
  intro exec b instanceID bindingID ent st cmd hmem idn hidn
  rcases hmem with h | h | h | h
  · have := pgProvision_trace_shape exec instanceID st cmd h
    subst this
    simp only [PGCmd.interpolatedIdents, List.mem_singleton] at hidn
    subst hidn
    exact identifierMatches_dbName instanceID
  · rcases pgDeprovision_trace_shape exec instanceID st cmd h with h2 | h2 <;> subst h2 <;>
      simp only [PGCmd.interpolatedIdents, List.mem_singleton, List.not_mem_nil] at hidn
    · subst hidn
      exact identifierMatches_dbName instanceID
  · rcases pgBind_trace_shape exec b instanceID bindingID ent st cmd h with ⟨pw, h2⟩ | h2 <;>
      subst h2 <;>
      simp only [PGCmd.interpolatedIdents, List.mem_singleton, List.mem_cons,
        List.not_mem_nil, or_false] at hidn
    · subst hidn
      exact identifierMatches_roleName bindingID
    · rcases hidn with rfl | rfl
      · exact identifierMatches_dbName instanceID
      · exact identifierMatches_roleName bindingID
  · rcases pgUnbind_trace_shape exec instanceID bindingID st cmd h with h2 | h2 <;>
      subst h2 <;>
      simp only [PGCmd.interpolatedIdents, List.mem_singleton, List.mem_cons,
        List.not_mem_nil, or_false] at hidn
    · rcases hidn with rfl | rfl
      · exact identifierMatches_dbName instanceID
      · exact identifierMatches_roleName bindingID
    · subst hidn
      exact identifierMatches_roleName bindingID

/-- Witness for C3: the validated-interpolation clause applied to the concrete
command issued by provisioning the injection InstanceID on an empty engine,
discharging the trace-membership hypothesis by evaluation. -/
theorem c3_witness : identifierMatches (dbName injectionID) = true :=
  c3_injection_prevented.2.1 pgExec
    ⟨str "localhost", str "5432", str "postgres", str "postgres"⟩
    injectionID injectionID [] ⟨[], []⟩
    (PGCmd.createDatabase (dbName injectionID))
    (Or.inl (by decide)) (dbName injectionID) (by decide)

theorem generateAccessKey_some {n : Nat} {ent : List Nat} {key : Str} {rest : List Nat}
    (h : generateAccessKey n ent = some (key, rest)) :
    n ≤ ent.length ∧ key = hexEncode (ent.take n) ∧ rest = ent.drop n := by
  unfold generateAccessKey randRead at h
  by_cases hn : n ≤ ent.length
  · rw [if_pos hn] at h
    simp only [Option.some.injEq, Prod.mk.injEq] at h
    exact ⟨hn, h.1.symm, h.2.symm⟩
  · rw [if_neg hn] at h
    exact absurd h (by simp)

theorem generateAccessKey_some_length {n : Nat} {ent : List Nat} {key : Str}
    {rest : List Nat} (h : generateAccessKey n ent = some (key, rest)) :
    key.length = 2 * n := by
  obtain ⟨hn, hk, _⟩ := generateAccessKey_some h
  rw [hk, hexEncode_length, List.length_take]
  omega

/-- C10 (confirmed): with a sufficient entropy source, `generateAccessKey` and
`generatePassword` on `n` bytes return exactly `2 * n` lowercase hexadecimal
characters; in the object-storage Bind the generated access key therefore has
20 characters and the secret key 40, the logging slice `bindAccessKey[:8]` is
in bounds, and Bind can never panic (it is total for every input). -/
theorem c10_credential_generation :
    (∀ (n : Nat) (ent : List Nat), n ≤ ent.length →
      generateAccessKey n ent = some (hexEncode (ent.take n), ent.drop n) ∧
      (hexEncode (ent.take n)).length = 2 * n ∧
      (hexEncode (ent.take n)).all lowerHexChar = true) ∧
    (∀ (n : Nat) (ent : List Nat), n ≤ ent.length →
      generatePassword n ent = some (hexEncode (ent.take n), ent.drop n)) ∧
    (∀ (ent : List Nat) (key : Str) (rest : List Nat),
      generateAccessKey 10 ent = some (key, rest) →
      key.length = 20 ∧ 8 ≤ key.length ∧ goSlice key 8 = some (key.take 8)) ∧
    (∀ (ent : List Nat) (key : Str) (rest : List Nat),
      generateAccessKey 20 ent = some (key, rest) → key.length = 40) ∧
    (∀ (b : MinioBroker) (st : MinioState) (instanceID bindingID : Str)
        (ent : List Nat),
      (minioBind b st instanceID bindingID ent).isSome = true) := by
  refine ⟨?_, ?_, ?_, ?_, ?_⟩
  · intro n ent hn
    refine ⟨?_, ?_, hexEncode_lowerHex _⟩
    · simp [generateAccessKey, randRead, hn]
    · rw [hexEncode_length, List.length_take]
      omega
  · intro n ent hn
    simp [generatePassword, randRead, hn]
  · intro ent key rest h
    have h20 := generateAccessKey_some_length h
    refine ⟨h20, by omega, ?_⟩
    rw [goSlice, if_pos (by omega)]
  · intro ent key rest h
    exact generateAccessKey_some_length h
  · intro b st instanceID bindingID ent
    simp only [minioBind]
    split
    · split
      · rfl
      · rename_i k e1 heq
        split
        · rfl
        · have hlen : k.length = 20 := generateAccessKey_some_length heq
          simp [goSlice, hlen]
    · rfl

/-- Witness for C10 at a concrete 30-byte entropy stream. -/
theorem c10_witness :
    generateAccessKey 10 (List.replicate 30 171) =
      some (hexEncode ((List.replicate 30 171).take 10), (List.replicate 30 171).drop 10) ∧
    generatePassword 16 (List.replicate 16 5) =
      some (hexEncode ((List.replicate 16 5).take 16), (List.replicate 16 5).drop 16) :=
  ⟨(c10_credential_generation.1 10 (List.replicate 30 171) (by decide)).1,
   c10_credential_generation.2.1 16 (List.replicate 16 5) (by decide)⟩
